import Mathlib

/-!
Verification of the WebClipper ratings-prompt eligibility engine
(`src/scripts/clipperUI/ratingsHelper.ts`).

The embedding models the JavaScript numbers arising in this module as
`Option Int`: every number here is either `NaN` (from a failed `parseInt`,
embedded as `none`) or an integer (epoch milliseconds, clip counts, version
segments, embedded as `some n`).  Comparison operators follow the JavaScript
semantics that any comparison with `NaN` is false.

External collaborators are passed explicitly:
  * `Settings.getSetting` becomes a function `String → Option String`
    (`none` = the setting is absent);
  * `Clipper.Storage` becomes an association list of key/value strings,
    `getCachedValue` a lookup, `setValue` a shadowing prepend;
  * `Date.now()` becomes an integer parameter `now`;
  * the numeric members of `Constants.Settings` (defined in `constants.ts`,
    outside the embedded module) become fields of `SettingsConsts`, and every
    theorem quantifies over them;
  * `ClientType` (an enum defined outside the embedded module) is modelled by
    its name string: `ClientType[clientType]` in the source is exactly that
    name, which is all `ratingsHelper.ts` uses.

The logging side effects (`Log.Event.PromiseEvent`, `RatingsLoggingInfo`) are
made explicit in the returned `EvalResult`: the `failed` field holds the
failure message passed to `event.setFailureInfo`, the `readKeys` field records
every storage key read, in order, and `info` mirrors the `RatingsLoggingInfo`
object the source mutates.
-/

/-- A JavaScript number as it occurs in `ratingsHelper.ts`: `none` is `NaN`
(or `undefined` where a number-typed expression can be `undefined`),
`some n` an integer value. -/
abbrev JSNum := Option Int

/-- JavaScript `a > b` on numbers: false whenever either side is `NaN`. -/
def jsGt : JSNum → JSNum → Bool
  | some a, some b => decide (a > b)
  | _, _ => false

/-- JavaScript `a >= b` on numbers: false whenever either side is `NaN`. -/
def jsGe : JSNum → JSNum → Bool
  | some a, some b => decide (a ≥ b)
  | _, _ => false

/-- JavaScript `a <= b` on numbers: false whenever either side is `NaN`. -/
def jsLe : JSNum → JSNum → Bool
  | some a, some b => decide (a ≤ b)
  | _, _ => false

/-- JavaScript `a === b` on numbers: `NaN === x` is false for every `x`.
In this module `none` only ever denotes `NaN` at the call sites of this
helper (the `undefined` case of `getMajorVersion` is cut off by the
preceding format checks). -/
def jsStrictEq : JSNum → JSNum → Bool
  | some a, some b => decide (a = b)
  | _, _ => false

/-- JavaScript `a - b` on numbers: `NaN` if either side is `NaN`. -/
def jsSub : JSNum → JSNum → JSNum
  | some a, some b => some (a - b)
  | _, _ => none

/-- Digit-string value, most significant digit first. -/
def digitsToNat (ds : List Char) : Nat :=
  ds.foldl (fun acc c => acc * 10 + (c.toNat - 48)) 0

/-- JavaScript `parseInt(s, 10)`: skip leading whitespace, read an optional
sign, then the longest prefix of decimal digits; `NaN` (`none`) when no digit
follows.  Trailing non-digit characters are ignored. -/
def parseInt (s : String) : Option Int :=
  let cs := s.data.dropWhile fun c => c = ' ' ∨ c = '\t' ∨ c = '\n' ∨ c = '\r'
  match cs with
  | '-' :: rest =>
      let ds := rest.takeWhile Char.isDigit
      if ds.isEmpty then none else some (-(digitsToNat ds : Int))
  | '+' :: rest =>
      let ds := rest.takeWhile Char.isDigit
      if ds.isEmpty then none else some ((digitsToNat ds : Int))
  | _ =>
      let ds := cs.takeWhile Char.isDigit
      if ds.isEmpty then none else some ((digitsToNat ds : Int))

/-- `parseInt` applied to a possibly-absent string: `parseInt(undefined, 10)`
and `parseInt(null, 10)` are `NaN` in JavaScript (the coerced strings
`"undefined"`/`"null"` have no digit prefix). -/
def parseIntOpt : Option String → Option Int
  | none => none
  | some s => parseInt s

/-- Character list split on `'.'`, keeping empty segments, most significant
first; `[[]]` on the empty list exactly as JavaScript `"".split(".")` is
`[""]`. -/
def splitOnDotChars : List Char → List (List Char)
  | [] => [[]]
  | c :: cs =>
    let rest := splitOnDotChars cs
    if c = '.' then
      [] :: rest
    else
      match rest with
      | seg :: segs => (c :: seg) :: segs
      | [] => [[c]]

/-- JavaScript `version.split(".")`: the dot-separated segments, empty
segments kept, never null. -/
def splitOnDot (s : String) : List String :=
  (splitOnDotChars s.data).map fun cs => String.mk cs

/-- ASCII lower-casing of one character, the fragment of Unicode
`toLowerCase` the compared literals exercise. -/
def charToLower (c : Char) : Char :=
  if 65 ≤ c.toNat ∧ c.toNat ≤ 90 then Char.ofNat (c.toNat + 32) else c

/-- JavaScript `s.toLowerCase()` restricted to ASCII case mapping; the
sole use is the case-insensitive comparison against `"true"`, which only
ASCII characters can satisfy. -/
def toLowerJS (s : String) : String :=
  String.mk (s.data.map charToLower)

/-- The numeric members of `Constants.Settings` used by `ratingsHelper.ts`.
They are configuration defined outside the embedded module, so each theorem
takes them as parameters. -/
structure SettingsConsts where
  maximumJSTimeValue : Int
  minTimeBetweenBadRatings : Int
  minClipSuccessForRatingsPrompt : Int
  maxClipSuccessForRatingsPrompt : Int
  deriving DecidableEq, Repr

/-- Modelled from the spec: the persisted key names of
`Constants.StorageKeys` (defined in `constants.ts`, outside the embedded
module); spec §6 fixes them as the literal strings below. -/
def doNotPromptRatingsKey : String := "doNotPromptRatings"

/-- Modelled from the spec: persisted key name (see `doNotPromptRatingsKey`). -/
def lastBadRatingDateKey : String := "lastBadRatingDate"

/-- Modelled from the spec: persisted key name (see `doNotPromptRatingsKey`). -/
def lastBadRatingVersionKey : String := "lastBadRatingVersion"

/-- Modelled from the spec: persisted key name (see `doNotPromptRatingsKey`). -/
def lastSeenVersionKey : String := "lastSeenVersion"

/-- Modelled from the spec: persisted key name (see `doNotPromptRatingsKey`). -/
def numSuccessfulClipsKey : String := "numSuccessfulClips"

/-- The in-memory key/value cache behind `Clipper.Storage`: an association
list, later entries shadowed by earlier ones. -/
abbrev Storage := List (String × String)

/-- `Clipper.Storage.getCachedValue(key)`: the cached string, or `none`
when the key was never written (JavaScript `null`/`undefined`). -/
def getCachedValue (storage : Storage) (key : String) : Option String :=
  (storage.find? fun p => p.1 == key).map Prod.snd

/-- `Clipper.Storage.setValue(key, value)`: last-writer-wins update. -/
def setValue (storage : Storage) (key value : String) : Storage :=
  (key, value) :: storage

/-- `RatingsHelper.ratingsPromptEnabledSettingNameSuffix`. -/
def ratingsPromptEnabledSettingNameSuffix : String := "_RatingsEnabled"

/-- `RatingsHelper.rateUrlSettingNameSuffix`. -/
def rateUrlSettingNameSuffix : String := "_RatingUrl"

/-- `RatingsHelper.combineClientTypeAndSuffix`: `ClientType[clientType]`
is the enum member's name, modelled directly as the string `clientType`. -/
def combineClientTypeAndSuffix (clientType : String) (suffix : String) : String :=
  clientType ++ suffix

/-- `RatingsHelper.getRatingsPromptEnabledSettingNameForClient`. -/
def getRatingsPromptEnabledSettingNameForClient (clientType : String) : String :=
  combineClientTypeAndSuffix clientType ratingsPromptEnabledSettingNameSuffix

/-- `RatingsHelper.ratingsPromptEnabledForClient`: the setting is present and
its lower-cased value is `"true"`. -/
def ratingsPromptEnabledForClient (settings : String → Option String)
    (clientType : String) : Bool :=
  let settingName := getRatingsPromptEnabledSettingNameForClient clientType
  match settings settingName with
  | none => false
  | some isEnabledAsStr => toLowerJS isEnabledAsStr == "true"

/-- `RatingsHelper.isValidDate`: the date lies between
`-maximumJSTimeValue` and `maximumJSTimeValue`, both inclusive; both
comparisons are false on `NaN`. -/
def isValidDate (maximumJSTimeValue : Int) (date : JSNum) : Bool :=
  let minimumTimeValue : Int := maximumJSTimeValue * (-1)
  jsGe date (some minimumTimeValue) && jsLe date (some maximumJSTimeValue)

/-- `RatingsHelper.versionHasCorrectFormat`: the string splits on `"."` into
exactly three segments and `parseInt` succeeds on each.  (In JavaScript
`split` never returns null, so the source's null check on the split result
never fires; out-of-range indexing would give `undefined`, whose `parseInt`
is `NaN`, captured here by `parseIntOpt` on the optional indexing.) -/
def versionHasCorrectFormat : Option String → Bool
  | none => false
  | some version =>
    let versionSplit := splitOnDot version
    if versionSplit.length != 3 ||
        (parseIntOpt versionSplit[0]?).isNone ||
        (parseIntOpt versionSplit[1]?).isNone ||
        (parseIntOpt versionSplit[2]?).isNone then
      false
    else
      true

/-- `RatingsHelper.getMajorVersion`: `parseInt` of the first dot-separated
segment; `none` both for the implicit `undefined` return on a null argument
and for a `NaN` parse. -/
def getMajorVersion : Option String → JSNum
  | none => none
  | some versionNum => parseIntOpt (splitOnDot versionNum)[0]?

/-- `RatingsHelper.getMinorVersion`: `parseInt` of the second dot-separated
segment; `none` both for the implicit `undefined` return on a null argument
and for a `NaN` parse (including a missing second segment). -/
def getMinorVersion : Option String → JSNum
  | none => none
  | some versionNum => parseIntOpt (splitOnDot versionNum)[1]?

/-- `RatingsHelper.badRatingTimingDelayIsOver`. -/
def badRatingTimingDelayIsOver (consts : SettingsConsts)
    (badRatingDate comparisonDate : JSNum) : Bool :=
  if badRatingDate.isNone then
    -- value has never been set, no bad rating given
    true
  else if !(isValidDate consts.maximumJSTimeValue badRatingDate) ||
      !(isValidDate consts.maximumJSTimeValue comparisonDate) then
    false
  else
    jsGe (jsSub comparisonDate badRatingDate) (some consts.minTimeBetweenBadRatings)

/-- `RatingsHelper.badRatingVersionDelayIsOver`. -/
def badRatingVersionDelayIsOver (badRatingVersion lastSeenVersion : Option String) : Bool :=
  if badRatingVersion.isNone then
    -- value has never been set, no bad rating given
    true
  else if !(versionHasCorrectFormat lastSeenVersion) ||
      !(versionHasCorrectFormat badRatingVersion) then
    false
  else
    let lastSeenMajor := getMajorVersion lastSeenVersion
    let badRatingMajor := getMajorVersion badRatingVersion
    if jsGt lastSeenMajor badRatingMajor then
      true
    else
      let lastSeenMinor := getMinorVersion lastSeenVersion
      let badRatingMinor := getMinorVersion badRatingVersion
      if jsStrictEq lastSeenMajor badRatingMajor && jsGt lastSeenMinor badRatingMinor then
        true
      else
        false

/-- `RatingsHelper.clipSuccessDelayIsOver`. -/
def clipSuccessDelayIsOver (consts : SettingsConsts) (numClips : JSNum) : Bool :=
  if numClips.isNone then
    false
  else
    jsGe numClips (some consts.minClipSuccessForRatingsPrompt) &&
      jsLe numClips (some consts.maxClipSuccessForRatingsPrompt)

/-- The session-scoped clipper state as `shouldShowRatingsPromptInternal`
uses it: the client identity (`clientInfo.clipperType`, modelled by the enum
member's name) and the `showRatingsPrompt` smart value, `none` while no
decision has been cached. -/
structure ClipperState where
  clipperType : String
  showRatingsPrompt : Option Bool
  deriving DecidableEq, Repr

/-- The `RatingsLoggingInfo` object mutated by
`shouldShowRatingsPromptInternal`: each field is `none` while unassigned.
`lastBadRatingDateLog` keeps the raw millisecond value whose `Date`
rendering the source logs (`Date#toString` is external); the inner `none`
is the explicit `null` written when the parsed date is falsy. -/
structure RatingsLoggingInfo where
  timingDelayOutcome : Option Bool := none
  versionDelayOutcome : Option Bool := none
  clipSuccessOutcome : Option Bool := none
  doNotPromptRatings : Option Bool := none
  lastBadRatingDateLog : Option (Option Int) := none
  lastBadRatingVersionLog : Option (Option String) := none
  lastSeenVersionLog : Option (Option String) := none
  numSuccessfulClips : Option JSNum := none
  ratingsPromptEnabledForClient : Option Bool := none
  usedCachedValue : Option Bool := none
  deriving DecidableEq, Repr

/-- The observable outcome of one `shouldShowRatingsPromptInternal` call:
its boolean result, the storage keys it read in order, the logging info it
assembled, and the failure message it attached to the event (via
`setStatus(Failed)`/`setFailureInfo`), if any. -/
structure EvalResult where
  result : Bool
  readKeys : List String
  info : RatingsLoggingInfo
  failed : Option String
  deriving DecidableEq, Repr

/-- JavaScript truthiness of a number, as used by the source's
`lastBadRatingDate ? new Date(lastBadRatingDate).toString() : null`:
`NaN` and `0` are falsy (mapped to the logged `null`). -/
def jsTruthyInt : JSNum → Option Int
  | none => none
  | some n => if n = 0 then none else some n

/-- `RatingsHelper.shouldShowRatingsPromptInternal`.  `settings` is
`Settings.getSetting`, `now` is `Date.now()`, `storage` the pre-cached
`Clipper.Storage` contents, and `clipperState` the possibly-absent session
state. -/
def shouldShowRatingsPromptInternal (settings : String → Option String)
    (consts : SettingsConsts) (now : Int) (storage : Storage)
    (clipperState : Option ClipperState) : EvalResult :=
  match clipperState with
  | none =>
    { result := false, readKeys := [], info := {},
      failed := some "Clipper state is null or undefined" }
  | some st =>
    match st.showRatingsPrompt with
    | some cached =>
      -- return cached value in clipper state since it already exists
      { result := cached, readKeys := [],
        info := { usedCachedValue := some true }, failed := none }
    | none =>
      let ratingsPromptEnabled := ratingsPromptEnabledForClient settings st.clipperType
      let infoEnabled : RatingsLoggingInfo :=
        { ratingsPromptEnabledForClient := some ratingsPromptEnabled }
      if !ratingsPromptEnabled then
        { result := false, readKeys := [], info := infoEnabled, failed := none }
      else
        let doNotPromptRatingsStr := getCachedValue storage doNotPromptRatingsKey
        let lastBadRatingDateAsStr := getCachedValue storage lastBadRatingDateKey
        let lastBadRatingVersion := getCachedValue storage lastBadRatingVersionKey
        let lastSeenVersion := getCachedValue storage lastSeenVersionKey
        let numClipsAsStr := getCachedValue storage numSuccessfulClipsKey
        let reads : List String :=
          [doNotPromptRatingsKey, lastBadRatingDateKey, lastBadRatingVersionKey,
            lastSeenVersionKey, numSuccessfulClipsKey]
        if (match doNotPromptRatingsStr with
            | none => false
            | some s => toLowerJS s == "true") then
          { result := false, readKeys := reads,
            info := { infoEnabled with doNotPromptRatings := some true },
            failed := none }
        else
          let lastBadRatingDate := parseIntOpt lastBadRatingDateAsStr
          let numClips := parseIntOpt numClipsAsStr
          let timingOver := badRatingTimingDelayIsOver consts lastBadRatingDate (some now)
          let versionOver := badRatingVersionDelayIsOver lastBadRatingVersion lastSeenVersion
          let clipsOver := clipSuccessDelayIsOver consts numClips
          { result := timingOver && versionOver && clipsOver,
            readKeys := reads,
            info :=
              { infoEnabled with
                lastBadRatingDateLog := some (jsTruthyInt lastBadRatingDate),
                lastBadRatingVersionLog := some lastBadRatingVersion,
                lastSeenVersionLog := some lastSeenVersion,
                numSuccessfulClips := some numClips,
                timingDelayOutcome := some timingOver,
                versionDelayOutcome := some versionOver,
                clipSuccessOutcome := some clipsOver },
            failed := none }

/-- `RatingsHelper.shouldShowRatingsPrompt`: delegates to the internal
evaluation and emits one diagnostic event (the emission itself is external;
its payload is the `EvalResult`). -/
def shouldShowRatingsPrompt (settings : String → Option String)
    (consts : SettingsConsts) (now : Int) (storage : Storage)
    (clipperState : Option ClipperState) : Bool :=
  (shouldShowRatingsPromptInternal settings consts now storage clipperState).result

/-- Modelled from the spec: the session-state write-back
(`setShowRatingsPromptState`, referenced by the source's doc comment but
defined outside `src/`).  Spec §4.3 steps 2 and 7: when the session already
holds a cached decision the call returns it unchanged; otherwise the computed
decision is cached on the session state — the first and only write for the
session. -/
def setShowRatingsPromptState (settings : String → Option String)
    (consts : SettingsConsts) (now : Int) (storage : Storage)
    (st : ClipperState) : ClipperState × EvalResult :=
  let r := shouldShowRatingsPromptInternal settings consts now storage (some st)
  match st.showRatingsPrompt with
  | some _ => (st, r)
  | none => ({ st with showRatingsPrompt := some r.result }, r)

/-- The outcome of one `RatingsHelper.setLastBadRating` call: its boolean
result, the storage contents after the call, and the writes it performed in
order. -/
structure SetRatingResult where
  result : Bool
  storage : Storage
  writes : List (String × String)
  deriving DecidableEq, Repr

/-- `RatingsHelper.setLastBadRating`. -/
def setLastBadRating (consts : SettingsConsts) (storage : Storage)
    (badRatingDateToSetAsStr badRatingVersionToSet : String) : SetRatingResult :=
  let badDateKey := lastBadRatingDateKey
  let badRatingDateToSet := parseInt badRatingDateToSetAsStr
  if !(isValidDate consts.maximumJSTimeValue badRatingDateToSet) then
    -- invalid value: err on the side of caution, always set do not prompt status
    { result := true, storage := storage, writes := [] }
  else if !(versionHasCorrectFormat (some badRatingVersionToSet)) then
    -- invalid value: err on the side of caution, always set do not prompt status
    { result := true, storage := storage, writes := [] }
  else
    let lastBadRatingDateAsStr := getCachedValue storage badDateKey
    let lastBadRatingDate := parseIntOpt lastBadRatingDateAsStr
    let badRatingAlreadyOccurred :=
      !lastBadRatingDate.isNone &&
        isValidDate consts.maximumJSTimeValue lastBadRatingDate
    let storageAfterDate := setValue storage badDateKey badRatingDateToSetAsStr
    let storageAfterBoth :=
      setValue storageAfterDate lastBadRatingVersionKey badRatingVersionToSet
    { result := badRatingAlreadyOccurred,
      storage := storageAfterBoth,
      writes := [(badDateKey, badRatingDateToSetAsStr),
                 (lastBadRatingVersionKey, badRatingVersionToSet)] }

/-! ## Spec-side reformulations

The following definitions follow the wording of the specification
(§4.1–§4.2) rather than the source; the refinement theorems below compare
them with the source-derived definitions above. -/

/-- Spec §4.1 `VersionComparator.parse`: an optional `(major, minor)` pair;
fails unless the string has exactly three dot-separated integer segments.
Patch is validated for format but not used. -/
def parseVersion (version : String) : Option (Int × Int) :=
  match splitOnDot version with
  | [major, minor, patch] =>
    match parseInt major, parseInt minor, parseInt patch with
    | some majorVal, some minorVal, some _ => some (majorVal, minorVal)
    | _, _, _ => none
  | _ => none

/-- Spec §4.1 `isAhead(a, b)`: true iff `major(a) > major(b)`, or
`major(a) == major(b)` and `minor(a) > minor(b)`. -/
def isAhead (a b : Int × Int) : Bool :=
  decide (a.1 > b.1) || (decide (a.1 = b.1) && decide (a.2 > b.2))

/-- Spec §4.2 `versionDelayIsOver`: absent bad-rating version is true,
a format-invalid string on either side fails closed, otherwise the
last-seen version must be ahead of the bad-rating version. -/
def versionDelayIsOverSpec (badRatingVersion lastSeenVersion : Option String) : Bool :=
  match badRatingVersion with
  | none => true
  | some bad =>
    match lastSeenVersion with
    | none => false
    | some seen =>
      match parseVersion bad, parseVersion seen with
      | some parsedBad, some parsedSeen => isAhead parsedSeen parsedBad
      | _, _ => false

/-- Spec §4.2 `timingDelayIsOver`: absent bad-rating date is true, a date
outside the validity bound on either side fails closed, otherwise the
elapsed time must reach `minTimeBetweenBadRatings`. -/
def timingDelayIsOverSpec (consts : SettingsConsts)
    (lastBadRatingDate now : JSNum) : Bool :=
  match lastBadRatingDate with
  | none => true
  | some badDate =>
    match now with
    | none => false
    | some nowVal =>
      if consts.maximumJSTimeValue < |badDate| ∨ consts.maximumJSTimeValue < |nowVal| then
        false
      else
        decide (nowVal - badDate ≥ consts.minTimeBetweenBadRatings)

/-- Spec §4.2 `usageCountDelayIsOver`: false unless the count is a valid
non-negative integer, then true iff it lies in the inclusive window
`[minClipSuccess, maxClipSuccess]`. -/
def usageCountDelayIsOverSpec (consts : SettingsConsts) (numClips : JSNum) : Bool :=
  match numClips with
  | none => false
  | some n =>
    if n < 0 then
      false
    else
      decide (consts.minClipSuccessForRatingsPrompt ≤ n ∧
        n ≤ consts.maxClipSuccessForRatingsPrompt)

/-! ## Helper lemmas -/

theorem isValidDate_some_eq (maximumJSTimeValue d : Int) :
    isValidDate maximumJSTimeValue (some d) = decide (|d| ≤ maximumJSTimeValue) := by
  simp only [isValidDate, jsGe, jsLe]
  rw [Bool.eq_iff_iff]
  simp only [Bool.and_eq_true, decide_eq_true_eq, abs_le, ge_iff_le]
  omega

theorem versionHasCorrectFormat_eq_isSome (v : String) :
    versionHasCorrectFormat (some v) = (parseVersion v).isSome := by
  unfold versionHasCorrectFormat parseVersion
  rcases hL : splitOnDot v with _ | ⟨a, _ | ⟨b, _ | ⟨c, _ | ⟨d, L⟩⟩⟩⟩ <;>
    simp [hL, parseIntOpt]
  rcases ha : parseInt a with _ | x <;> rcases hb : parseInt b with _ | y <;>
    rcases hc : parseInt c with _ | z <;> simp [ha, hb, hc]

theorem getMajorVersion_eq_of_parse (v : String) (p : Int × Int)
    (h : parseVersion v = some p) : getMajorVersion (some v) = some p.1 := by
  unfold parseVersion at h
  unfold getMajorVersion
  rcases hL : splitOnDot v with _ | ⟨a, _ | ⟨b, _ | ⟨c, _ | ⟨d, L⟩⟩⟩⟩ <;>
    rw [hL] at h <;> simp at h
  rcases ha : parseInt a with _ | x <;> rcases hb : parseInt b with _ | y <;>
    rcases hc : parseInt c with _ | z <;> rw [ha, hb, hc] at h <;> simp at h
  simp [hL, parseIntOpt, ha, ← h]

theorem getMinorVersion_eq_of_parse (v : String) (p : Int × Int)
    (h : parseVersion v = some p) : getMinorVersion (some v) = some p.2 := by
  unfold parseVersion at h
  unfold getMinorVersion
  rcases hL : splitOnDot v with _ | ⟨a, _ | ⟨b, _ | ⟨c, _ | ⟨d, L⟩⟩⟩⟩ <;>
    rw [hL] at h <;> simp at h
  rcases ha : parseInt a with _ | x <;> rcases hb : parseInt b with _ | y <;>
    rcases hc : parseInt c with _ | z <;> rw [ha, hb, hc] at h <;> simp at h
  simp [hL, parseIntOpt, hb, ← h]

/-! ## Claim theorems -/

/-- C9: for every number `d`, `isValidDate(d)` is true iff `|d|` is at most
the configured maximum timestamp value, and both boundary values
`+maximumJSTimeValue` and `-maximumJSTimeValue` are valid (the configured
bound being a non-negative quantity). -/
theorem isValidDate_iff_abs_le (maximumJSTimeValue : Int)
    (h : 0 ≤ maximumJSTimeValue) :
    (∀ d : Int,
      isValidDate maximumJSTimeValue (some d) = decide (|d| ≤ maximumJSTimeValue)) ∧
    isValidDate maximumJSTimeValue (some maximumJSTimeValue) = true ∧
    isValidDate maximumJSTimeValue (some (-maximumJSTimeValue)) = true := by
  refine ⟨fun d => isValidDate_some_eq _ d, ?_, ?_⟩ <;>
    (simp [isValidDate_some_eq, abs_le]; exact h)

/-- Witness for `isValidDate_iff_abs_le` at `maximumJSTimeValue = 5`. -/
theorem isValidDate_iff_abs_le_witness :
    isValidDate 5 (some 3) = decide (|(3 : Int)| ≤ 5) ∧ isValidDate 5 (some 5) = true :=
  ⟨(isValidDate_iff_abs_le 5 (by decide)).1 3, (isValidDate_iff_abs_le 5 (by decide)).2.1⟩

/-- C5: for all numbers (integer or `NaN`), `badRatingTimingDelayIsOver`
agrees with the spec's `timingDelayIsOver`: true on an absent (`NaN`) bad
rating date, false when either date fails the validity bound, and otherwise
true iff the elapsed time reaches `minTimeBetweenBadRatings`. -/
theorem badRatingTimingDelayIsOver_eq_spec (consts : SettingsConsts)
    (badRatingDate comparisonDate : JSNum) :
    badRatingTimingDelayIsOver consts badRatingDate comparisonDate =
      timingDelayIsOverSpec consts badRatingDate comparisonDate := by
  cases badRatingDate with
  | none => rfl
  | some b =>
    cases comparisonDate with
    | none =>
      simp [badRatingTimingDelayIsOver, timingDelayIsOverSpec, isValidDate, jsGe, jsLe, jsSub]
    | some n =>
      simp only [badRatingTimingDelayIsOver, timingDelayIsOverSpec, Option.isNone_some,
        isValidDate_some_eq, jsSub, jsGe, Bool.if_false_left]
      rw [Bool.eq_iff_iff]
      by_cases hb : |b| ≤ consts.maximumJSTimeValue <;>
        by_cases hn : |n| ≤ consts.maximumJSTimeValue <;>
          simp [hb, hn]

/-- C6: `clipSuccessDelayIsOver` agrees with the spec's
`usageCountDelayIsOver` whenever the configured lower bound is non-negative:
false on a count that is not a valid non-negative integer, otherwise true iff
the count lies in the inclusive window; in particular it is false at
`MIN - 1` and at `MAX + 1`. -/
theorem clipSuccessDelayIsOver_eq_spec (consts : SettingsConsts)
    (hmin : 0 ≤ consts.minClipSuccessForRatingsPrompt) :
    (∀ numClips : JSNum,
      clipSuccessDelayIsOver consts numClips = usageCountDelayIsOverSpec consts numClips) ∧
    clipSuccessDelayIsOver consts (some (consts.minClipSuccessForRatingsPrompt - 1)) = false ∧
    clipSuccessDelayIsOver consts (some (consts.maxClipSuccessForRatingsPrompt + 1)) = false := by
  refine ⟨?_, ?_, ?_⟩
  · intro numClips
    cases numClips with
    | none => rfl
    | some n =>
      simp only [clipSuccessDelayIsOver, usageCountDelayIsOverSpec, jsGe, jsLe,
        Option.isNone_some, Bool.if_false_left]
      rw [Bool.eq_iff_iff]
      by_cases h : n < 0
      · simp [h]
        omega
      · simp [h]
  · simp only [clipSuccessDelayIsOver, jsGe, jsLe, Option.isNone_some, Bool.if_false_left]
    simp
  · simp only [clipSuccessDelayIsOver, jsGe, jsLe, Option.isNone_some, Bool.if_false_left]
    simp

/-- Witness for `clipSuccessDelayIsOver_eq_spec` with window `[3, 10]`. -/
theorem clipSuccessDelayIsOver_eq_spec_witness :
    (clipSuccessDelayIsOver ⟨100, 10, 3, 10⟩ (some 5) =
        usageCountDelayIsOverSpec ⟨100, 10, 3, 10⟩ (some 5)) ∧
    clipSuccessDelayIsOver ⟨100, 10, 3, 10⟩ (some (3 - 1)) = false :=
  ⟨(clipSuccessDelayIsOver_eq_spec ⟨100, 10, 3, 10⟩ (by decide)).1 (some 5),
    (clipSuccessDelayIsOver_eq_spec ⟨100, 10, 3, 10⟩ (by decide)).2.1⟩

/-- C4: for all strings, `badRatingVersionDelayIsOver` agrees with the spec's
`versionDelayIsOver` built on `VersionComparator.parse`/`isAhead`: true on an
absent bad-rating version, false when either string lacks three parseable
dot-separated segments, and otherwise true iff the last seen version is ahead
on (major, minor) — the patch segment is not consulted. -/
theorem badRatingVersionDelayIsOver_eq_spec (badRatingVersion lastSeenVersion : Option String) :
    badRatingVersionDelayIsOver badRatingVersion lastSeenVersion =
      versionDelayIsOverSpec badRatingVersion lastSeenVersion := by
  cases badRatingVersion with
  | none => rfl
  | some bad =>
    cases lastSeenVersion with
    | none =>
      simp [badRatingVersionDelayIsOver, versionDelayIsOverSpec, versionHasCorrectFormat]
    | some seen =>
      rcases hb : parseVersion bad with _ | pb
      · have hfb : versionHasCorrectFormat (some bad) = false := by
          rw [versionHasCorrectFormat_eq_isSome, hb]; rfl
        simp [badRatingVersionDelayIsOver, versionDelayIsOverSpec, hfb, hb]
      · rcases hs : parseVersion seen with _ | ps
        · have hfs : versionHasCorrectFormat (some seen) = false := by
            rw [versionHasCorrectFormat_eq_isSome, hs]; rfl
          simp [badRatingVersionDelayIsOver, versionDelayIsOverSpec, hfs, hb, hs]
        · have hfb : versionHasCorrectFormat (some bad) = true := by
            rw [versionHasCorrectFormat_eq_isSome, hb]; rfl
          have hfs : versionHasCorrectFormat (some seen) = true := by
            rw [versionHasCorrectFormat_eq_isSome, hs]; rfl
          simp only [badRatingVersionDelayIsOver, versionDelayIsOverSpec, hfb, hfs, hb, hs,
            getMajorVersion_eq_of_parse bad pb hb, getMajorVersion_eq_of_parse seen ps hs,
            getMinorVersion_eq_of_parse bad pb hb, getMinorVersion_eq_of_parse seen ps hs,
            jsGt, jsStrictEq, isAhead, Option.isNone_some, Bool.not_true, Bool.or_false,
            Bool.false_or, Bool.not_false, if_false]
          rw [Bool.eq_iff_iff]
          by_cases h1 : ps.1 > pb.1 <;> by_cases h2 : ps.1 = pb.1 <;>
            by_cases h3 : ps.2 > pb.2 <;> simp [h1, h2, h3]

/-- C10: whenever `versionHasCorrectFormat` accepts a string, both
`getMajorVersion` and `getMinorVersion` return an integer — neither the
`NaN` parse nor the implicit `undefined` fall-through (both embedded as
`none`) can occur — and those integers are the parses of the first and
second dot-separated segments. -/
theorem version_components_defined_of_correctFormat (v : String)
    (h : versionHasCorrectFormat (some v) = true) :
    (getMajorVersion (some v)).isSome = true ∧
    (getMinorVersion (some v)).isSome = true ∧
    getMajorVersion (some v) = parseIntOpt (splitOnDot v)[0]? ∧
    getMinorVersion (some v) = parseIntOpt (splitOnDot v)[1]? := by
  rw [versionHasCorrectFormat_eq_isSome] at h
  rcases hp : parseVersion v with _ | p
  · rw [hp] at h; simp at h
  · exact ⟨by rw [getMajorVersion_eq_of_parse v p hp]; rfl,
      by rw [getMinorVersion_eq_of_parse v p hp]; rfl, rfl, rfl⟩

/-- Witness for `version_components_defined_of_correctFormat` at `"1.2.3"`. -/
theorem version_components_defined_of_correctFormat_witness :
    (getMajorVersion (some "1.2.3")).isSome = true ∧
    (getMinorVersion (some "1.2.3")).isSome = true ∧
    getMajorVersion (some "1.2.3") = parseIntOpt (splitOnDot "1.2.3")[0]? ∧
    getMinorVersion (some "1.2.3") = parseIntOpt (splitOnDot "1.2.3")[1]? :=
  version_components_defined_of_correctFormat "1.2.3" (by decide)

/-- C8 counterexample: on an absent session the engine does return false,
but the failure message attached to the diagnostic is the source's
"Clipper state is null or undefined", not "session state is missing" as the
claim states. -/
theorem missingSession_message_counterexample :
    (shouldShowRatingsPromptInternal (fun _ => none) ⟨100, 10, 3, 10⟩ 0 [] none).result
        = false ∧
    (shouldShowRatingsPromptInternal (fun _ => none) ⟨100, 10, 3, 10⟩ 0 [] none).failed
        = some "Clipper state is null or undefined" ∧
    "Clipper state is null or undefined" ≠ "session state is missing" :=
  ⟨rfl, rfl, by decide⟩

/-- C8 (amended): for every call on an absent session, the engine returns
false, reads no storage key, and attaches the failure message
"Clipper state is null or undefined" to the diagnostic (the total function
models that no exception propagates). -/
theorem missingSession_returns_false (settings : String → Option String)
    (consts : SettingsConsts) (now : Int) (storage : Storage) :
    (shouldShowRatingsPromptInternal settings consts now storage none).result = false ∧
    (shouldShowRatingsPromptInternal settings consts now storage none).failed =
      some "Clipper state is null or undefined" ∧
    (shouldShowRatingsPromptInternal settings consts now storage none).readKeys = [] :=
  ⟨rfl, rfl, rfl⟩

/-- C7 counterexample: a session already holding a cached `true` decision
returns `true` even though the ratings prompt resolves to disabled for its
client, so the claim's unconditional "returns false" fails. -/
theorem ratingsDisabled_cached_counterexample :
    ratingsPromptEnabledForClient (fun _ => none) "ChromeExtension" = false ∧
    shouldShowRatingsPrompt (fun _ => none) ⟨100, 10, 3, 10⟩ 0 []
      (some ⟨"ChromeExtension", some true⟩) = true :=
  ⟨rfl, rfl⟩

/-- C7 (amended): for every session holding no cached decision whose client
identity resolves the ratings prompt to disabled, the call returns false and
reads none of the five stored keys. -/
theorem ratingsDisabled_shortCircuit (settings : String → Option String)
    (consts : SettingsConsts) (now : Int) (storage : Storage) (st : ClipperState)
    (hcache : st.showRatingsPrompt = none)
    (hdisabled : ratingsPromptEnabledForClient settings st.clipperType = false) :
    (shouldShowRatingsPromptInternal settings consts now storage (some st)).result = false ∧
    (shouldShowRatingsPromptInternal settings consts now storage (some st)).readKeys = [] := by
  constructor <;> simp [shouldShowRatingsPromptInternal, hcache, hdisabled]

/-- Witness for `ratingsDisabled_shortCircuit`: absent setting, fresh session. -/
theorem ratingsDisabled_shortCircuit_witness :
    (shouldShowRatingsPromptInternal (fun _ => none) ⟨100, 10, 3, 10⟩ 0
        [("doNotPromptRatings", "true")] (some ⟨"ChromeExtension", none⟩)).result = false ∧
    (shouldShowRatingsPromptInternal (fun _ => none) ⟨100, 10, 3, 10⟩ 0
        [("doNotPromptRatings", "true")] (some ⟨"ChromeExtension", none⟩)).readKeys = [] :=
  ratingsDisabled_shortCircuit (fun _ => none) ⟨100, 10, 3, 10⟩ 0
    [("doNotPromptRatings", "true")] ⟨"ChromeExtension", none⟩ rfl rfl

/-- C1: for a present session, (a) when no decision is cached, the
write-back caller stores exactly the computed decision on the session state
(spec-modelled `setShowRatingsPromptState`, the unset-to-boolean transition),
and (b) when a decision is already cached, the state is left unchanged, the
evaluation returns the cached boolean, and no storage key is read. -/
theorem shouldShowRatingsPrompt_cache_transition (settings : String → Option String)
    (consts : SettingsConsts) (now : Int) (storage : Storage) (st : ClipperState) :
    (st.showRatingsPrompt = none →
      (setShowRatingsPromptState settings consts now storage st).1.showRatingsPrompt =
        some (shouldShowRatingsPromptInternal settings consts now storage (some st)).result) ∧
    (∀ b : Bool, st.showRatingsPrompt = some b →
      (setShowRatingsPromptState settings consts now storage st).1 = st ∧
      (shouldShowRatingsPromptInternal settings consts now storage (some st)).result = b ∧
      (shouldShowRatingsPromptInternal settings consts now storage (some st)).readKeys = []) := by
  constructor
  · intro hcache
    simp [setShowRatingsPromptState, hcache]
  · intro b hcache
    refine ⟨?_, ?_, ?_⟩ <;>
      simp [setShowRatingsPromptState, shouldShowRatingsPromptInternal, hcache]

/-- Witness for `shouldShowRatingsPrompt_cache_transition`: an unset session
gets the computed decision cached; a session cached at `true` returns it. -/
theorem shouldShowRatingsPrompt_cache_transition_witness :
    (setShowRatingsPromptState (fun _ => none) ⟨100, 10, 3, 10⟩ 0 []
        ⟨"ChromeExtension", none⟩).1.showRatingsPrompt =
      some (shouldShowRatingsPromptInternal (fun _ => none) ⟨100, 10, 3, 10⟩ 0 []
        (some ⟨"ChromeExtension", none⟩)).result ∧
    (shouldShowRatingsPromptInternal (fun _ => none) ⟨100, 10, 3, 10⟩ 0 []
        (some ⟨"ChromeExtension", some true⟩)).result = true :=
  ⟨(shouldShowRatingsPrompt_cache_transition (fun _ => none) ⟨100, 10, 3, 10⟩ 0 []
      ⟨"ChromeExtension", none⟩).1 rfl,
    ((shouldShowRatingsPrompt_cache_transition (fun _ => none) ⟨100, 10, 3, 10⟩ 0 []
      ⟨"ChromeExtension", some true⟩).2 true rfl).2.1⟩

/-- C2: for an evaluation that reaches the stored-state step (session
present, no cached decision, ratings prompt enabled): if the stored
do-not-prompt flag lower-cases to "true" the result is false regardless of
the other stored values; otherwise the result is the conjunction of the
three delay policies applied to the read values. -/
theorem shouldShowRatingsPrompt_storedState_decision (settings : String → Option String)
    (consts : SettingsConsts) (now : Int) (storage : Storage) (st : ClipperState)
    (hcache : st.showRatingsPrompt = none)
    (henabled : ratingsPromptEnabledForClient settings st.clipperType = true) :
    ((∃ s, getCachedValue storage doNotPromptRatingsKey = some s ∧ toLowerJS s = "true") →
      (shouldShowRatingsPromptInternal settings consts now storage (some st)).result = false) ∧
    ((∀ s, getCachedValue storage doNotPromptRatingsKey = some s → toLowerJS s ≠ "true") →
      (shouldShowRatingsPromptInternal settings consts now storage (some st)).result =
        (badRatingTimingDelayIsOver consts
            (parseIntOpt (getCachedValue storage lastBadRatingDateKey)) (some now) &&
          badRatingVersionDelayIsOver (getCachedValue storage lastBadRatingVersionKey)
            (getCachedValue storage lastSeenVersionKey) &&
          clipSuccessDelayIsOver consts
            (parseIntOpt (getCachedValue storage numSuccessfulClipsKey)))) := by
  constructor
  · rintro ⟨s, hs, hlow⟩
    simp [shouldShowRatingsPromptInternal, hcache, henabled, hs, hlow]
  · intro hno
    rcases hdnp : getCachedValue storage doNotPromptRatingsKey with _ | s
    · simp [shouldShowRatingsPromptInternal, hcache, henabled, hdnp]
    · have hne : (toLowerJS s == "true") = false :=
        beq_eq_false_iff_ne.mpr (hno s hdnp)
      simp [shouldShowRatingsPromptInternal, hcache, henabled, hdnp, hne]

/-- Witness for `shouldShowRatingsPrompt_storedState_decision`: enabled
client, fresh session, storage holding only a clip count. -/
theorem shouldShowRatingsPrompt_storedState_decision_witness :
    (shouldShowRatingsPromptInternal
        (fun k => if k = "ChromeExtension_RatingsEnabled" then some "true" else none)
        ⟨100, 10, 3, 10⟩ 50 [("numSuccessfulClips", "5")]
        (some ⟨"ChromeExtension", none⟩)).result =
      (badRatingTimingDelayIsOver ⟨100, 10, 3, 10⟩
          (parseIntOpt (getCachedValue [("numSuccessfulClips", "5")] lastBadRatingDateKey))
          (some 50) &&
        badRatingVersionDelayIsOver
          (getCachedValue [("numSuccessfulClips", "5")] lastBadRatingVersionKey)
          (getCachedValue [("numSuccessfulClips", "5")] lastSeenVersionKey) &&
        clipSuccessDelayIsOver ⟨100, 10, 3, 10⟩
          (parseIntOpt (getCachedValue [("numSuccessfulClips", "5")] numSuccessfulClipsKey))) :=
  (shouldShowRatingsPrompt_storedState_decision
      (fun k => if k = "ChromeExtension_RatingsEnabled" then some "true" else none)
      ⟨100, 10, 3, 10⟩ 50 [("numSuccessfulClips", "5")] ⟨"ChromeExtension", none⟩
      rfl (by decide)).2
    (by
      intro s hs
      rw [show getCachedValue [("numSuccessfulClips", "5")] doNotPromptRatingsKey = none
        from by decide] at hs
      exact Option.noConfusion hs)

/-- C3: `setLastBadRating` returns true with no storage write when the date
fails the validity bound or the version fails format validation; otherwise
it returns true exactly when a previously stored bad-rating date parses to a
valid value, and it unconditionally writes the new date and version to their
two keys, overwriting prior values and leaving every other key unchanged. -/
theorem setLastBadRating_spec (consts : SettingsConsts) (storage : Storage)
    (dateStr verStr : String) :
    ((isValidDate consts.maximumJSTimeValue (parseInt dateStr) = false ∨
        versionHasCorrectFormat (some verStr) = false) →
      (setLastBadRating consts storage dateStr verStr).result = true ∧
      (setLastBadRating consts storage dateStr verStr).writes = [] ∧
      (setLastBadRating consts storage dateStr verStr).storage = storage) ∧
    (isValidDate consts.maximumJSTimeValue (parseInt dateStr) = true →
      versionHasCorrectFormat (some verStr) = true →
      ((setLastBadRating consts storage dateStr verStr).result = true ↔
        ∃ d : Int, parseIntOpt (getCachedValue storage lastBadRatingDateKey) = some d ∧
          isValidDate consts.maximumJSTimeValue (some d) = true) ∧
      (setLastBadRating consts storage dateStr verStr).writes =
        [(lastBadRatingDateKey, dateStr), (lastBadRatingVersionKey, verStr)] ∧
      getCachedValue (setLastBadRating consts storage dateStr verStr).storage
        lastBadRatingDateKey = some dateStr ∧
      getCachedValue (setLastBadRating consts storage dateStr verStr).storage
        lastBadRatingVersionKey = some verStr ∧
      (∀ k, k ≠ lastBadRatingDateKey → k ≠ lastBadRatingVersionKey →
        getCachedValue (setLastBadRating consts storage dateStr verStr).storage k =
          getCachedValue storage k)) := by
  constructor
  · intro hinv
    cases hdate : isValidDate consts.maximumJSTimeValue (parseInt dateStr) with
    | false =>
      refine ⟨?_, ?_, ?_⟩ <;> simp [setLastBadRating, hdate]
    | true =>
      have hver : versionHasCorrectFormat (some verStr) = false := by
        rcases hinv with h | h
        · rw [hdate] at h; exact absurd h (by simp)
        · exact h
      refine ⟨?_, ?_, ?_⟩ <;> simp [setLastBadRating, hdate, hver]
  · intro hdate hver
    refine ⟨?_, ?_, ?_, ?_, ?_⟩
    · rcases hparse : parseIntOpt (getCachedValue storage lastBadRatingDateKey) with _ | d
      · simp [setLastBadRating, hdate, hver, hparse]
      · simp [setLastBadRating, hdate, hver, hparse]
    · simp [setLastBadRating, hdate, hver]
    · simp [setLastBadRating, hdate, hver, setValue, getCachedValue, List.find?,
        lastBadRatingDateKey, lastBadRatingVersionKey]
    · simp [setLastBadRating, hdate, hver, setValue, getCachedValue, List.find?,
        lastBadRatingVersionKey]
    · intro k hk1 hk2
      have h1 : (lastBadRatingDateKey == k) = false :=
        beq_eq_false_iff_ne.mpr fun he => hk1 he.symm
      have h2 : (lastBadRatingVersionKey == k) = false :=
        beq_eq_false_iff_ne.mpr fun he => hk2 he.symm
      simp [setLastBadRating, hdate, hver, setValue, getCachedValue, List.find?, h1, h2]

/-- Witness for `setLastBadRating_spec`: valid date `"50"` (bound 100),
valid version `"1.0.0"`, prior bad-rating date `"20"`. -/
theorem setLastBadRating_spec_witness :
    (setLastBadRating ⟨100, 10, 3, 10⟩ [("lastBadRatingDate", "20")] "50" "1.0.0").writes =
      [(lastBadRatingDateKey, "50"), (lastBadRatingVersionKey, "1.0.0")] ∧
    (setLastBadRating ⟨100, 10, 3, 10⟩ [] "abc" "1.0.0").result = true ∧
    (setLastBadRating ⟨100, 10, 3, 10⟩ [] "abc" "1.0.0").writes = [] :=
  ⟨((setLastBadRating_spec ⟨100, 10, 3, 10⟩ [("lastBadRatingDate", "20")] "50" "1.0.0").2
      (by decide) (by decide)).2.1,
    ((setLastBadRating_spec ⟨100, 10, 3, 10⟩ [] "abc" "1.0.0").1 (Or.inl (by decide))).1,
    ((setLastBadRating_spec ⟨100, 10, 3, 10⟩ [] "abc" "1.0.0").1 (Or.inl (by decide))).2.1⟩
